import Mathlib

/-!
Verification of `rsa_archer/record_search.py` (class `RecordSearcher`).

The Python module is shallowly embedded: JSON payloads become an inductive
`Json` type, the external `ArcherInstance` collaborator plus the HTTP world
become an explicit `Env` record (response oracles for POST/GET requests),
and each method of `RecordSearcher` becomes a total Lean function over `Env`.
Python exceptions inside `try` blocks are modelled with `Except Unit`, and
exceptions crossing the public interface with `Except LookupErr`.
-/

set_option maxHeartbeats 1000000

namespace RecordSearch

/-- A decoded JSON value, as produced by `resp.json()` in the Python code.
`null` plays the role of Python `None`.  Numbers are modelled as integers
only (the payloads handled by the module carry integer record ids). -/
inductive Json where
  | null
  | bool (b : Bool)
  | num (n : Int)
  | str (s : String)
  | arr (xs : List Json)
  | obj (kvs : List (String × Json))

/-- Python truthiness (`if x:`) for decoded JSON values. -/
def Json.truthy : Json → Bool
  | .null => false
  | .bool b => b
  | .num n => decide (n ≠ 0)
  | .str s => decide (s ≠ "")
  | .arr xs => !xs.isEmpty
  | .obj kvs => !kvs.isEmpty

/-- Raw dictionary lookup: the value stored under key `k`, if the key is
present (a stored JSON `null` stays visible as `some .null`). -/
def jsonFind (kvs : List (String × Json)) (k : String) : Option Json :=
  (kvs.find? (fun kv => kv.1 = k)).map (fun kv => kv.2)

/-- Python `d.get(k)`: `None` both when the key is absent and when the stored
value is `null` (JSON `null` decodes to Python `None`). -/
def pyGetOpt (kvs : List (String × Json)) (k : String) : Option Json :=
  match jsonFind kvs k with
  | some .null => none
  | some v => some v
  | none => none

/-- Python `k in d` for a decoded JSON object. -/
def jsonHasKey (kvs : List (String × Json)) (k : String) : Bool :=
  kvs.any (fun kv => kv.1 = k)

/-- Strip leading and trailing whitespace from a character list (the
whitespace tolerated by Python `int()` on strings). -/
def trimChars (l : List Char) : List Char :=
  ((l.dropWhile Char.isWhitespace).reverse.dropWhile Char.isWhitespace).reverse

/-- Decimal digit run parse used by the model of Python `int()`. -/
def parseNatDigits : List Char → Option Nat
  | [] => none
  | l =>
    if l.all Char.isDigit then some (l.foldl (fun a c => a * 10 + (c.toNat - 48)) 0)
    else none

/-- Model of Python `int(s)` on a string: optional surrounding whitespace,
optional sign, decimal digits; anything else raises (returns `none`).
(Underscore digit separators are not modelled.) -/
def parsePyInt (s : String) : Option Int :=
  match trimChars s.data with
  | '-' :: rest => (parseNatDigits rest).map (fun n => -(n : Int))
  | '+' :: rest => (parseNatDigits rest).map (fun n => (n : Int))
  | t => (parseNatDigits t).map (fun n => (n : Int))

/-- Model of Python `int(x)` on a decoded JSON value: `none` means the call
raises (`int(None)`, `int(dict)`, non-numeric strings, ...). -/
def pyInt : Json → Option Int
  | .num n => some n
  | .bool b => some (if b then 1 else 0)
  | .str s => parsePyInt s
  | _ => none

/-- Model of Python `str(x)` / f-string conversion of a decoded JSON value.
For lists and dicts this renders a `repr`-like bracketed form; the module
only ever feeds such values into `int(str(x))` (where any bracketed string
fails to parse, as in Python) or into URL text for degenerate directory
payloads, so the exact escaping inside `repr` is immaterial. -/
def pyRepr : Json → String
  | .null => "None"
  | .bool b => if b then "True" else "False"
  | .num n => toString n
  | .str s => String.singleton (Char.ofNat 39) ++ s ++ String.singleton (Char.ofNat 39)
  | .arr xs => "[" ++ String.intercalate ", " (xs.attach.map (fun x => pyRepr x.1)) ++ "]"
  | .obj kvs => "\x7b" ++ String.intercalate ", "
      (kvs.attach.map (fun kv =>
        String.singleton (Char.ofNat 39) ++ kv.1.1 ++ String.singleton (Char.ofNat 39)
          ++ ": " ++ pyRepr kv.1.2)) ++ "\x7d"
decreasing_by
  · simp_wf
    have := List.sizeOf_lt_of_mem x.2
    omega
  · simp_wf
    have h1 := List.sizeOf_lt_of_mem kv.2
    have h2 : sizeOf kv.1.2 < sizeOf kv.1 := by
      obtain ⟨a, b⟩ := kv.1
      simp only [Prod.mk.sizeOf_spec]
      omega
    omega

def pyStr : Json → String
  | .null => "None"
  | .bool b => if b then "True" else "False"
  | .num n => toString n
  | .str s => s
  | j => pyRepr j

/-- Python `str.lower()` (ASCII case folding; the display names handled by
the module are ASCII). -/
def pyLower (s : String) : String := String.mk (s.data.map Char.toLower)

/-- Whether `pat` is a leading segment of `l`. -/
def startsWithChars : List Char → List Char → Bool
  | _, [] => true
  | [], _ :: _ => false
  | c :: cs, p :: ps => c = p && startsWithChars cs ps

/-- Whether `pat` occurs contiguously inside `l` (true for an empty `pat`,
as in Python). -/
def containsChars (pat : List Char) : List Char → Bool
  | [] => pat.isEmpty
  | c :: cs => startsWithChars (c :: cs) pat || containsChars pat cs

/-- Python substring test `pat in s`. -/
def strContains (s pat : String) : Bool :=
  containsChars pat.data s.data

/-- Python `needle in x` for a decoded JSON value `x`: substring test on
strings, element membership on lists, key membership on dicts; raises
(`.error`) on numbers, booleans and `None`. -/
def pyContains (needle : String) : Json → Except Unit Bool
  | .str s => .ok (strContains s needle)
  | .arr xs => .ok (xs.any (fun x => match x with | .str t => t = needle | _ => false))
  | .obj kvs => .ok (kvs.any (fun kv => kv.1 = needle))
  | _ => .error ()

/-- A key of the Python dict `archer.application_fields_json`, which mixes
display-name (string) keys and field-id (int) keys. -/
inductive PyKey where
  | str (s : String)
  | int (n : Int)

/-- Python `==` between a dict key and a field-id value pulled from the same
dict (Python unifies `True`/`1` and `False`/`0`). -/
def pyKeyEq : PyKey → Json → Bool
  | .str s, .str t => s = t
  | .int n, .num m => n = m
  | .int n, .bool b => n = (if b then 1 else 0)
  | _, _ => false

/-- An HTTP response as seen by the module: a status code and the result of
`resp.json()` (`none` when JSON decoding raises). -/
structure HttpResp where
  status : Nat
  json : Option Json

/-- The JSON body of a POST to `<api-base>core/content/record/search`, in the
shapes the module sends (`ModuleId`, `Page`, one equality `Filter`, and for
the real search a `ReturnFields: ["Id"]` member). -/
structure PostBody where
  moduleId : Int
  pageStart : Nat
  pageSize : Nat
  filterFieldId : Json
  filterValue : Json
  returnFieldsId : Bool

/-- The external world of `RecordSearcher`: the `ArcherInstance` collaborator
surface it reads, and response oracles for the two HTTP verbs it uses.
`post` is keyed by the structured search body, `get` by the full request URL;
`none` from an oracle models a raised transport exception. -/
structure Env where
  application_fields_json : List (PyKey × Json)
  application_level_id : Json
  get_value_id_by_field_name_and_value : String → String → List Int
  api_url_base : String
  content_api_url_base : String
  post : PostBody → Option HttpResp
  get : String → Option HttpResp

/-- Exceptions that can cross `RecordSearcher`'s public interface during a
single-value lookup: the `ValueError` from field resolution, the
`RuntimeError` for a non-numeric application level id, and `AmbiguousMatch`
with its `details` list. -/
inductive LookupErr where
  | fieldNotFound (field_display_name : String) (app_name : String)
  | invalidModuleId (raw : Json)
  | ambiguous (ids : List Int)

/-- `RecordSearcher._resolve_field_id_by_display_name`: scan the entries of
`application_fields_json` in order and return the value of the first string
key equal to the display name ignoring case; raise `ValueError` otherwise.
(The `from_application` refresh call is a collaborator side effect; `Env`
holds the post-refresh metadata.) -/
def resolve_field_id_by_display_name (env : Env) (app_name field_display_name : String) :
    Except LookupErr Json :=
  let target := pyLower field_display_name
  match env.application_fields_json.find? (fun kv =>
      match kv.1 with
      | .str s => pyLower s = target
      | _ => false) with
  | some kv => .ok kv.2
  | none => .error (.fieldNotFound field_display_name app_name)

/-- `RecordSearcher._is_values_list`: look the field id up in
`application_fields_json`; if the stored value is a dict, test
`int(info.get("Type", -1)) == 4`, treating a raised `int()` as `False`. -/
def is_values_list (env : Env) (field_id : Json) : Bool :=
  match env.application_fields_json.find? (fun kv => pyKeyEq kv.1 field_id) with
  | some (_, .obj info) =>
    match pyInt ((jsonFind info "Type").getD (.num (-1))) with
    | some n => decide (n = 4)
    | none => false
  | _ => false

/-- The sentinel token substituted when a values-list value has no id. -/
def noMatchSentinel : String := "__CLINE_VALUES_LIST_NO_MATCH__"

/-- `RecordSearcher._get_value_or_value_id`: for values-list fields, the
first id returned by the collaborator (or the sentinel when it returns
none); otherwise the raw value unchanged. -/
def get_value_or_value_id (env : Env) (field_display_name : String) (field_id : Json)
    (field_value : String) : Json :=
  if is_values_list env field_id then
    match env.get_value_id_by_field_name_and_value field_display_name field_value with
    | [] => .str noMatchSentinel
    | i :: _ => .num i
  else .str field_value

/-- The probe body sent by `RecordSearcher._supports_rest_search`. -/
def probeBody (module_id : Int) : PostBody :=
  { moduleId := module_id, pageStart := 0, pageSize := 1,
    filterFieldId := .num 0, filterValue := .str "__CLINE_PROBE__",
    returnFieldsId := false }

/-- `RecordSearcher._supports_rest_search`: `False` on HTTP 404/405 or a
raised request, `True` on any other response (the body is never read). -/
def supports_rest_search (env : Env) (module_id : Int) : Bool :=
  match env.post (probeBody module_id) with
  | none => false
  | some r => !(r.status = 404 || r.status = 405)

/-- The body sent by `RecordSearcher._rest_search_record_ids`. -/
def searchBody (module_id : Int) (field_id : Json) (value : Json) (limit : Nat) : PostBody :=
  { moduleId := module_id, pageStart := 0, pageSize := limit,
    filterFieldId := field_id, filterValue := value, returnFieldsId := true }

/-- `if rid: ids.append(int(rid))` — keep a truthy id, raising if `int()`
raises. -/
def appendIfTruthy (rid : Json) : Except Unit (Option Int) :=
  if rid.truthy then
    match pyInt rid with
    | some n => .ok (some n)
    | none => .error ()
  else .ok none

/-- One item of a top-level-array REST response (also the degenerate
top-level-object case): `item.get("RequestedObject", {}).get("Id")`
followed by the truthy append. -/
def restParseListItem (item : Json) : Except Unit (Option Int) :=
  match item with
  | .obj kvs =>
    match (jsonFind kvs "RequestedObject").getD (.obj []) with
    | .obj rkvs => appendIfTruthy ((jsonFind rkvs "Id").getD .null)
    | _ => .error ()
  | _ => .error ()

/-- Whether `suf` is a trailing segment of `l`. -/
def endsWithChars (suf l : List Char) : Bool :=
  startsWithChars l.reverse suf.reverse

/-- `k.lower().endswith("_id") or k.lower() == "id"`. -/
def keyLooksLikeId (k : String) : Bool :=
  endsWithChars ('_' :: 'i' :: 'd' :: []) (pyLower k).data
    || decide (pyLower k = "id")

/-- One item of the `{"value": [...]}` REST response shape: prefer
`item["RequestedObject"].get("Id")` when that key exists, else the first
value under a key ending in `_id`/equal to `id` (case-insensitively);
non-dict items are skipped. -/
def restParseValueItem (item : Json) : Except Unit (Option Int) :=
  match item with
  | .obj kvs =>
    if jsonHasKey kvs "RequestedObject" then
      match (jsonFind kvs "RequestedObject").getD .null with
      | .obj rkvs => appendIfTruthy ((jsonFind rkvs "Id").getD .null)
      | _ => .error ()
    else
      match kvs.find? (fun kv => keyLooksLikeId kv.1) with
      | some kv => appendIfTruthy kv.2
      | none => appendIfTruthy .null
  | _ => .ok none

/-- Run a per-item parser over a response array, collecting the kept ids in
order; a raised item aborts the whole parse (the Python `except` then
discards every id collected so far). -/
def collectItems (f : Json → Except Unit (Option Int)) : List Json → Except Unit (List Int)
  | [] => .ok []
  | x :: xs =>
    match f x with
    | .error e => .error e
    | .ok none => collectItems f xs
    | .ok (some n) => (collectItems f xs).map (fun l => n :: l)

/-- `RecordSearcher._rest_search_record_ids`: POST the structured search
body; HTTP ≥ 400, a raised request, a raised `resp.json()`, or any raise
while parsing yields `[]`; otherwise the ids extracted from the recognized
response shapes, in order. -/
def rest_search_record_ids (env : Env) (module_id : Int) (field_id : Json) (value : Json)
    (limit : Nat) : List Int :=
  match env.post (searchBody module_id field_id value limit) with
  | none => []
  | some r =>
    if r.status ≥ 400 then []
    else
      match r.json with
      | none => []
      | some data =>
        let parsed : Except Unit (List Int) :=
          match data with
          | .arr items => collectItems restParseListItem items
          | .obj kvs =>
            match jsonFind kvs "value" with
            | some (.arr items) => collectItems restParseValueItem items
            | _ =>
              (restParseListItem (.obj kvs)).map (fun o =>
                match o with
                | some n => [n]
                | none => [])
          | _ => .ok []
        match parsed with
        | .ok ids => ids
        | .error _ => []

/-- The loop body of `RecordSearcher._get_grc_endpoint_url`: walk the
directory entries in order carrying the substring candidates collected so
far; return the `url` of the first exact name match immediately, else at
the end the first collected candidate (a candidate may itself be Python
`None`), else `None`.  A non-dict entry, or an `in` test against a
non-container name, raises. -/
def grcEndpointLoop (app_name : String) : List Json → List (Option Json) →
    Except Unit (Option Json)
  | [], cands => .ok ((cands.head?).getD none)
  | ep :: rest, cands =>
    match ep with
    | .obj kvs =>
      let raw := (jsonFind kvs "name").getD (.str "")
      let name := if raw.truthy then raw else .str ""
      if (match name with | .str s => decide (s = app_name) | _ => false) then
        .ok (pyGetOpt kvs "url")
      else
        match pyContains app_name name with
        | .error e => .error e
        | .ok true => grcEndpointLoop app_name rest (cands ++ [pyGetOpt kvs "url"])
        | .ok false => grcEndpointLoop app_name rest cands
    | _ => .error ()

/-- `RecordSearcher._get_grc_endpoint_url`: GET the content-API base URL
(ignoring the status code), read `data.get("value", [])`, and select an
entry by exact then substring name match; any raise inside the `try`
(transport, JSON decoding, shape errors) yields `None`.  Iterating a
non-list `value` either raises or yields no candidates, so it also results
in `None`. -/
def get_grc_endpoint_url (env : Env) (app_name : String) : Option Json :=
  match env.get env.content_api_url_base with
  | none => none
  | some r =>
    match r.json with
    | none => none
    | some (.obj kvs) =>
      match (jsonFind kvs "value").getD (.arr []) with
      | .arr eps =>
        match grcEndpointLoop app_name eps [] with
        | .ok res => res
        | .error _ => none
      | _ => none
    | some _ => none

/-- Uppercase hex digit. -/
def hexDigit (n : Nat) : Char :=
  if n < 10 then Char.ofNat (48 + n) else Char.ofNat (55 + n)

/-- The UTF-8 encoding of one character, as byte values. -/
def utf8Bytes (c : Char) : List Nat :=
  let n := c.toNat
  if n < 128 then [n]
  else if n < 2048 then [192 + n / 64, 128 + n % 64]
  else if n < 65536 then [224 + n / 4096, 128 + (n / 64) % 64, 128 + n % 64]
  else [240 + n / 262144, 128 + (n / 4096) % 64, 128 + (n / 64) % 64, 128 + n % 64]

/-- One byte of `urllib.parse.quote_plus`: alphanumerics and `_.-~` pass
through, a space becomes `+`, every other byte is percent-encoded. -/
def quotePlusByte (n : Nat) : String :=
  if (65 ≤ n ∧ n ≤ 90) ∨ (97 ≤ n ∧ n ≤ 122) ∨ (48 ≤ n ∧ n ≤ 57)
      ∨ n = 95 ∨ n = 46 ∨ n = 45 ∨ n = 126 then
    String.singleton (Char.ofNat n)
  else if n = 32 then "+"
  else "%" ++ String.singleton (hexDigit (n / 16)) ++ String.singleton (hexDigit (n % 16))

/-- `urllib.parse.quote_plus` over the UTF-8 bytes of the string. -/
def quotePlus (s : String) : String :=
  String.join ((s.data.flatMap utf8Bytes).map quotePlusByte)

/-- The `$select` field name `f"\x7bendpoint_url\x7d_Id"` built by
`_contentapi_search_record_ids`. -/
def selectFieldFor (endpoint_url : Json) : String := pyStr endpoint_url ++ "_Id"

/-- The full GET URL built by `RecordSearcher._contentapi_search_record_ids`:
`<content-api-base><endpoint>?$filter=<quote_plus "<field> eq '<value>'">&$select=<endpoint>_Id`. -/
def contentApiUrlFor (env : Env) (endpoint_url : Json)
    (field_display_name field_value : String) : String :=
  let filter_expr := field_display_name ++ " eq " ++ String.singleton (Char.ofNat 39)
    ++ field_value ++ String.singleton (Char.ofNat 39)
  env.content_api_url_base ++ pyStr endpoint_url ++ "?$filter=" ++ quotePlus filter_expr
    ++ "&$select=" ++ selectFieldFor endpoint_url

/-- One item of the Content API response array: prefer the value under the
conventional `<endpoint>_Id` key, else the first value under a key ending in
`_id`/equal to `id` (ignoring case); keep any id that is not `None`
(`if rid is not None: ids.append(int(rid))`), raising if `int()` raises;
skip non-dict items. -/
def contentParseItem (select_field : String) (item : Json) : Except Unit (Option Int) :=
  match item with
  | .obj kvs =>
    let rid : Option Json :=
      match pyGetOpt kvs select_field with
      | some v => some v
      | none =>
        match kvs.find? (fun kv => keyLooksLikeId kv.1) with
        | some (_, .null) => none
        | some (_, v) => some v
        | none => none
    match rid with
    | none => .ok none
    | some v =>
      match pyInt v with
      | some n => .ok (some n)
      | none => .error ()
  | _ => .ok none

/-- `RecordSearcher._contentapi_search_record_ids`: GET the filtered OData
query; HTTP ≥ 400, a raised request, a raised `resp.json()`, or any raise
while parsing yields `[]`; otherwise the ids of `data.get("value", [])`'s
items, in order.  Iterating a non-list `value` either raises or keeps no
ids, so it also yields `[]`. -/
def contentapi_search_record_ids (env : Env) (endpoint_url : Json)
    (field_display_name field_value : String) : List Int :=
  let select_field := selectFieldFor endpoint_url
  match env.get (contentApiUrlFor env endpoint_url field_display_name field_value) with
  | none => []
  | some r =>
    if r.status ≥ 400 then []
    else
      match r.json with
      | none => []
      | some (.obj kvs) =>
        match (jsonFind kvs "value").getD (.arr []) with
        | .arr items =>
          match collectItems (contentParseItem select_field) items with
          | .ok ids => ids
          | .error _ => []
        | _ => []
      | some _ => []

/-- The module-id coercion in `get_record_id_by_field`:
`int(module_id_raw)`, then `int(str(module_id_raw))`, else `RuntimeError`. -/
def moduleIdOf (raw : Json) : Except LookupErr Int :=
  match pyInt raw with
  | some n => .ok n
  | none =>
    match parsePyInt (pyStr raw) with
    | some n => .ok n
    | none => .error (.invalidModuleId raw)

/-- The result-count classification at the end of `get_record_id_by_field`:
no ids → `None`; one id → that id; several → `AmbiguousMatch` carrying the
full list. -/
def classifyIds (ids : List Int) : Except LookupErr (Option Int) :=
  match ids with
  | [] => .ok none
  | [x] => .ok (some x)
  | _ => .error (.ambiguous ids)

/-- The strategy-selection middle of `get_record_id_by_field`: probe the
REST endpoint and search it if supported; otherwise discover the Content
API endpoint (a falsy discovery result makes the lookup return `None`,
modelled as `none` here) and run the filtered query. -/
def strategyIds (env : Env) (app_name field_display_name field_value : String)
    (module_id : Int) (field_id : Json) (search_token : Json) : Option (List Int) :=
  if supports_rest_search env module_id then
    some (rest_search_record_ids env module_id field_id search_token 2)
  else
    match get_grc_endpoint_url env app_name with
    | none => none
    | some ep =>
      if ep.truthy then
        some (contentapi_search_record_ids env ep field_display_name field_value)
      else none

/-- `RecordSearcher.get_record_id_by_field`: resolve the field id, coerce
the application level id, compute the search token, run the selected
strategy, and classify the resulting id count. -/
def get_record_id_by_field (env : Env) (app_name field_display_name field_value : String) :
    Except LookupErr (Option Int) :=
  match resolve_field_id_by_display_name env app_name field_display_name with
  | .error e => .error e
  | .ok field_id =>
    match moduleIdOf env.application_level_id with
    | .error e => .error e
    | .ok module_id =>
      let search_token := get_value_or_value_id env field_display_name field_id field_value
      match strategyIds env app_name field_display_name field_value module_id field_id
          search_token with
      | none => .ok none
      | some ids => classifyIds ids

/-- Ordered association-list update, modelling `d[k] = v` on a Python dict:
overwrite in place when the key exists, append otherwise. -/
def updateAssoc {α : Type} (m : List (String × α)) (k : String) (v : α) :
    List (String × α) :=
  if m.any (fun kv => kv.1 = k) then
    m.map (fun kv => if kv.1 = k then (k, v) else kv)
  else m ++ [(k, v)]

/-- `d.get(k)` on an ordered association list. -/
def lookupAssoc {α : Type} (m : List (String × α)) (k : String) : Option α :=
  (m.find? (fun kv => kv.1 = k)).map (fun kv => kv.2)

/-- The loop of `RecordSearcher.get_record_ids_by_field_bulk`: for each
value run the single lookup; store its id (or `None`) in `results`, and for
an `AmbiguousMatch` also store the normalized details in `ambiguities`.
The single lookup's details are always a list of ints here, so the
normalizing `int(x)` coercion in the source is the identity. -/
def bulkLoop (env : Env) (app_name field_display_name : String) :
    List String → List (String × Option Int) → List (String × List Int) →
    List (String × Option Int) × List (String × List Int)
  | [], results, ambiguities => (results, ambiguities)
  | v :: vs, results, ambiguities =>
    match get_record_id_by_field env app_name field_display_name v with
    | .ok rid => bulkLoop env app_name field_display_name vs (updateAssoc results v rid) ambiguities
    | .error (.ambiguous ids) =>
      bulkLoop env app_name field_display_name vs (updateAssoc results v none)
        (updateAssoc ambiguities v ids)
    | .error _ =>
      bulkLoop env app_name field_display_name vs (updateAssoc results v none) ambiguities

/-- `RecordSearcher.get_record_ids_by_field_bulk`: process every value, then
raise `AmbiguousMatch` carrying the ambiguity map if it is non-empty, else
return the results map. -/
def get_record_ids_by_field_bulk (env : Env) (app_name field_display_name : String)
    (values : List String) :
    Except (List (String × List Int)) (List (String × Option Int)) :=
  if (bulkLoop env app_name field_display_name values [] []).2.isEmpty then
    .ok (bulkLoop env app_name field_display_name values [] []).1
  else .error (bulkLoop env app_name field_display_name values [] []).2

/-- The ambiguity details a single-value lookup reports for `v`, if any. -/
def ambDetails (env : Env) (app_name field_display_name v : String) : Option (List Int) :=
  match get_record_id_by_field env app_name field_display_name v with
  | .error (.ambiguous ids) => some ids
  | _ => none

/-- The id the bulk loop stores for `v`: the single lookup's result, with
every failure collapsed to `None`. -/
def singleResultOrNone (env : Env) (app_name field_display_name v : String) : Option Int :=
  match get_record_id_by_field env app_name field_display_name v with
  | .ok rid => rid
  | .error _ => none

/-- The directory-entry name as the Python loop compares it: the string
under `"name"`, with a missing or falsy name read as `""`. -/
def epNameStr (ep : Json) : String :=
  match ep with
  | .obj kvs =>
    match jsonFind kvs "name" with
    | some (.str s) => s
    | _ => ""
  | _ => ""

/-- The directory-entry query path: the value under `"url"`, if any. -/
def epUrl (ep : Json) : Option Json :=
  match ep with
  | .obj kvs => pyGetOpt kvs "url"
  | _ => none

/-- A well-formed directory entry: a dict whose `name`, when present, is a
string or falsy (so the Python loop cannot raise on it). -/
def wfDirEntry (ep : Json) : Bool :=
  match ep with
  | .obj kvs =>
    match jsonFind kvs "name" with
    | none => true
    | some (.str _) => true
    | some j => !j.truthy
  | _ => false

/-- Endpoint selection as the spec words it: the entry whose name exactly
equals the application name, else the first entry whose name contains it as
a substring, else absent. -/
def selectEndpointSpec (app_name : String) (eps : List Json) : Option Json :=
  match eps.find? (fun ep => decide (epNameStr ep = app_name)) with
  | some ep => epUrl ep
  | none =>
    match (eps.filter (fun ep => strContains (epNameStr ep) app_name)).head? with
    | some ep => epUrl ep
    | none => none

/-- Concrete environment mirroring the repository's `test_rest_single_result`
fixture: metadata `"Ticket Number" -> 10`, level id `"100"`, probe answered
200, every structured search answered with one record of id 555. -/
def envRestOne : Env :=
  { application_fields_json :=
      [(.str "Ticket Number", .num 10), (.int 10, .obj [("Type", .num 1), ("FieldId", .num 10)])],
    application_level_id := .str "100",
    get_value_id_by_field_name_and_value := fun _ _ => [],
    api_url_base := "https://fake/rsaarcher/api/",
    content_api_url_base := "https://fake/rsaarcher/contentapi/",
    post := fun b =>
      if b.returnFieldsId then
        some ⟨200, some (.arr [.obj [("RequestedObject", .obj [("Id", .num 555)])]])⟩
      else some ⟨200, some (.obj [])⟩,
    get := fun _ => none }

/-- Like `envRestOne`, but the search for value `"b"` returns two records
(ids 1 and 2) while any other value returns the single id 555. -/
def envAmbTwo : Env :=
  { envRestOne with
    post := fun b =>
      if b.returnFieldsId then
        match b.filterValue with
        | .str "b" =>
          some ⟨200, some (.arr [.obj [("RequestedObject", .obj [("Id", .num 1)])],
                                 .obj [("RequestedObject", .obj [("Id", .num 2)])]])⟩
        | _ => some ⟨200, some (.arr [.obj [("RequestedObject", .obj [("Id", .num 555)])]])⟩
      else some ⟨200, some (.obj [])⟩ }

/-- Like `envRestOne`, but with no field metadata at all, so every field
resolution fails. -/
def envNoField : Env := { envRestOne with application_fields_json := [] }

/-- Like `envRestOne`, but with a non-numeric application level id, so the
module-id coercion fails. -/
def envBadModule : Env := { envRestOne with application_level_id := .str "abc" }

/-- Concrete environment mirroring the repository's `test_contentapi_fallback`
fixture: probe answered 404, the directory lists one exactly matching entry
with path `"Endpoint"`, and the filtered query returns id 222. -/
def envFallbackDir : Env :=
  { envRestOne with
    post := fun _ => some ⟨404, some (.obj [])⟩,
    get := fun u =>
      if u = "https://fake/rsaarcher/contentapi/" then
        some ⟨200, some (.obj [("value",
          .arr [.obj [("name", .str "App"), ("url", .str "Endpoint")]])])⟩
      else
        some ⟨200, some (.obj [("value", .arr [.obj [("Endpoint_Id", .num 222)]])])⟩ }

/-- Environment in which every HTTP request raises a transport exception. -/
def envTransportFail : Env :=
  { envRestOne with post := fun _ => none, get := fun _ => none }

/-- Environment in which every HTTP request is answered with status 500 and
an unparseable body. -/
def env500 : Env :=
  { envRestOne with post := fun _ => some ⟨500, none⟩, get := fun _ => some ⟨500, none⟩ }

/-- Environment in which every HTTP request is answered with status 200 but
a body on which `resp.json()` raises. -/
def env200BadJson : Env :=
  { envRestOne with post := fun _ => some ⟨200, none⟩, get := fun _ => some ⟨200, none⟩ }

/-- Concrete values-list environment mirroring `test_values_list_rest_search`:
field `"Status"` has type 4, the value `"Open"` resolves to internal id 999,
and searching for token 999 finds record 777. -/
def envVL : Env :=
  { envRestOne with
    application_fields_json := [(.str "Status", .num 20), (.int 20, .obj [("Type", .num 4), ("FieldId", .num 20)])],
    get_value_id_by_field_name_and_value := fun f v =>
      if f = "Status" ∧ v = "Open" then [999] else [],
    post := fun b =>
      if b.returnFieldsId then
        match b.filterValue with
        | .num 999 => some ⟨200, some (.arr [.obj [("RequestedObject", .obj [("Id", .num 777)])]])⟩
        | _ => some ⟨200, some (.arr [])⟩
      else some ⟨200, some (.obj [])⟩ }

/-- A POST oracle that answers the probe with 404 (like `envFallbackDir`)
but would answer the structured search with a record of id 555. -/
def postRest555 : PostBody → Option HttpResp := fun b =>
  if b.returnFieldsId then
    some ⟨200, some (.arr [.obj [("RequestedObject", .obj [("Id", .num 555)])]])⟩
  else some ⟨404, some (.obj [])⟩

/-- Like `envRestOne`, but the only matching record has id 0 in the REST
response. -/
def envZeroRest : Env :=
  { envRestOne with
    post := fun b =>
      if b.returnFieldsId then
        some ⟨200, some (.arr [.obj [("RequestedObject", .obj [("Id", .num 0)])]])⟩
      else some ⟨200, some (.obj [])⟩ }

/-- Environment whose Content API answers every GET with a single record of
id 0 under the conventional `Endpoint_Id` key. -/
def envZeroContent : Env :=
  { envRestOne with
    get := fun _ => some ⟨200, some (.obj [("value", .arr [.obj [("Endpoint_Id", .num 0)]])])⟩ }

theorem lookupAssoc_nil {α : Type} (k : String) : lookupAssoc ([] : List (String × α)) k = none := rfl

theorem lookupAssoc_overwrite {α : Type} (m : List (String × α)) (k k' : String) (v : α) :
    lookupAssoc (m.map (fun kv => if kv.1 = k then (k, v) else kv)) k' =
      if k' = k then (lookupAssoc m k).map (fun _ => v) else lookupAssoc m k' := by
  induction m with
  | nil => simp [lookupAssoc]
  | cons kv rest ih =>
    simp only [List.map_cons]
    by_cases hk : kv.1 = k
    · rw [if_pos hk]
      by_cases hk' : k' = k
      · subst hk'
        rw [if_pos rfl]
        unfold lookupAssoc
        rw [List.find?_cons_of_pos _ (by simp), List.find?_cons_of_pos _ (by simp [hk])]
        simp
      · rw [if_neg hk']
        unfold lookupAssoc at ih ⊢
        rw [if_neg hk'] at ih
        rw [List.find?_cons_of_neg _
              (by simp only [decide_eq_true_eq]; exact fun h => hk' h.symm),
            List.find?_cons_of_neg _
              (by simp only [hk, decide_eq_true_eq]; exact fun h => hk' h.symm)]
        exact ih
    · rw [if_neg hk]
      by_cases hh : kv.1 = k'
      · have hk2 : ¬ (k' = k) := fun h => hk (hh.trans h)
        rw [if_neg hk2]
        unfold lookupAssoc
        rw [List.find?_cons_of_pos _ (by simp [hh]), List.find?_cons_of_pos _ (by simp [hh])]
      · by_cases hk' : k' = k
        · subst hk'
          rw [if_pos rfl]
          unfold lookupAssoc at ih ⊢
          rw [List.find?_cons_of_neg _ (by simp [hh]), List.find?_cons_of_neg _ (by simp [hk])]
          rw [if_pos rfl] at ih
          exact ih
        · rw [if_neg hk']
          unfold lookupAssoc at ih ⊢
          rw [List.find?_cons_of_neg _ (by simp [hh]), List.find?_cons_of_neg _ (by simp [hh])]
          rw [if_neg hk'] at ih
          exact ih

theorem lookupAssoc_isSome_of_any {α : Type} (m : List (String × α)) (k : String)
    (h : m.any (fun kv => kv.1 = k) = true) : ∃ w, lookupAssoc m k = some w := by
  rw [List.any_eq_true] at h
  obtain ⟨kv, hmem, hkv⟩ := h
  have hs : (m.find? (fun kv => kv.1 = k)).isSome := by
    rw [List.find?_isSome]
    exact ⟨kv, hmem, hkv⟩
  obtain ⟨w, hw⟩ := Option.isSome_iff_exists.mp hs
  exact ⟨w.2, by simp [lookupAssoc, hw]⟩

theorem lookupAssoc_none_of_not_any {α : Type} (m : List (String × α)) (k : String)
    (h : m.any (fun kv => kv.1 = k) = false) : lookupAssoc m k = none := by
  have hfind : m.find? (fun kv => kv.1 = k) = none := by
    rw [List.find?_eq_none]
    rw [List.any_eq_false] at h
    exact h
  simp [lookupAssoc, hfind]

theorem lookupAssoc_updateAssoc {α : Type} (m : List (String × α)) (k k' : String) (v : α) :
    lookupAssoc (updateAssoc m k v) k' = if k' = k then some v else lookupAssoc m k' := by
  unfold updateAssoc
  by_cases hmem : m.any (fun kv => kv.1 = k) = true
  · rw [if_pos hmem, lookupAssoc_overwrite]
    by_cases hk' : k' = k
    · obtain ⟨w, hw⟩ := lookupAssoc_isSome_of_any m k hmem
      simp [hk', hw]
    · simp [hk']
  · rw [if_neg hmem]
    have hnone := lookupAssoc_none_of_not_any m k (Bool.eq_false_iff.mpr hmem)
    have hfind : m.find? (fun kv => kv.1 = k) = none := by
      unfold lookupAssoc at hnone
      exact Option.map_eq_none'.mp hnone
    by_cases hk' : k' = k
    · subst hk'
      rw [if_pos rfl]
      unfold lookupAssoc
      rw [List.find?_append, hfind]
      simp [List.find?_cons_of_pos]
    · rw [if_neg hk']
      unfold lookupAssoc
      rw [List.find?_append]
      cases hf : m.find? (fun kv => kv.1 = k') with
      | none =>
        have hone : [(k, v)].find? (fun kv => kv.1 = k') = none := by
          rw [List.find?_eq_none]
          intro kv hkv
          simp only [List.mem_singleton] at hkv
          subst hkv
          simpa using fun h => hk' h.symm
        simp [hf, hone, Option.orElse]
      | some w => simp [hf, Option.orElse]

theorem keys_updateAssoc {α : Type} (m : List (String × α)) (k : String) (v : α) :
    (updateAssoc m k v).map Prod.fst =
      if m.any (fun kv => kv.1 = k) = true then m.map Prod.fst
      else m.map Prod.fst ++ [k] := by
  unfold updateAssoc
  by_cases hmem : m.any (fun kv => kv.1 = k) = true
  · rw [if_pos hmem, if_pos hmem, List.map_map]
    apply List.map_congr_left
    intro kv _
    by_cases hk : kv.1 = k
    · simp [hk]
    · simp [hk]
  · rw [if_neg hmem, if_neg hmem]
    simp

theorem mem_keys_updateAssoc {α : Type} (m : List (String × α)) (k k' : String) (v : α) :
    k' ∈ (updateAssoc m k v).map Prod.fst ↔ k' ∈ m.map Prod.fst ∨ k' = k := by
  rw [keys_updateAssoc]
  by_cases hmem : m.any (fun kv => kv.1 = k) = true
  · rw [if_pos hmem]
    constructor
    · exact Or.inl
    · rintro (h | rfl)
      · exact h
      · rw [List.any_eq_true] at hmem
        obtain ⟨kv, hkv, hp⟩ := hmem
        simp only [decide_eq_true_eq] at hp
        exact List.mem_map.mpr ⟨kv, hkv, hp⟩
  · rw [if_neg hmem]
    simp

theorem nodup_keys_updateAssoc {α : Type} (m : List (String × α)) (k : String) (v : α)
    (h : (m.map Prod.fst).Nodup) : ((updateAssoc m k v).map Prod.fst).Nodup := by
  rw [keys_updateAssoc]
  by_cases hmem : m.any (fun kv => kv.1 = k) = true
  · rwa [if_pos hmem]
  · rw [if_neg hmem]
    rw [List.nodup_append]
    refine ⟨h, List.nodup_singleton k, ?_⟩
    intro a ha hb
    simp only [List.mem_singleton] at hb
    subst hb
    have hmem' : m.any (fun kv => kv.1 = a) = false := Bool.eq_false_iff.mpr hmem
    rw [List.any_eq_false] at hmem'
    obtain ⟨kv, hkv, h1⟩ := List.mem_map.mp ha
    exact hmem' kv hkv (by simp [h1])

theorem bulkLoop_amb_lookup (env : Env) (a f : String) (vs : List String)
    (results : List (String × Option Int)) (amb : List (String × List Int)) (v : String) :
    lookupAssoc (bulkLoop env a f vs results amb).2 v =
      match (if v ∈ vs then ambDetails env a f v else none) with
      | some ids => some ids
      | none => lookupAssoc amb v := by
  induction vs generalizing results amb with
  | nil => simp [bulkLoop]
  | cons w rest ih =>
    unfold bulkLoop
    cases hw : get_record_id_by_field env a f w with
    | ok rid =>
      have hd : ambDetails env a f w = none := by simp [ambDetails, hw]
      rw [ih]
      by_cases hv : v = w
      · subst hv
        simp [hd, List.mem_cons]
      · simp [List.mem_cons, hv]
    | error e =>
      cases e with
      | ambiguous ids =>
        have hd : ambDetails env a f w = some ids := by simp [ambDetails, hw]
        rw [ih]
        by_cases hv : v = w
        · subst hv
          by_cases hr : v ∈ rest
          · simp [hd, hr, List.mem_cons]
          · simp [hd, hr, List.mem_cons, lookupAssoc_updateAssoc]
        · simp [List.mem_cons, hv, lookupAssoc_updateAssoc]
      | fieldNotFound s t =>
        have hd : ambDetails env a f w = none := by simp [ambDetails, hw]
        rw [ih]
        by_cases hv : v = w
        · subst hv
          simp [hd, List.mem_cons]
        · simp [List.mem_cons, hv]
      | invalidModuleId j =>
        have hd : ambDetails env a f w = none := by simp [ambDetails, hw]
        rw [ih]
        by_cases hv : v = w
        · subst hv
          simp [hd, List.mem_cons]
        · simp [List.mem_cons, hv]

theorem bulkLoop_results_lookup (env : Env) (a f : String) (vs : List String)
    (results : List (String × Option Int)) (amb : List (String × List Int)) (v : String) :
    lookupAssoc (bulkLoop env a f vs results amb).1 v =
      if v ∈ vs then some (singleResultOrNone env a f v) else lookupAssoc results v := by
  induction vs generalizing results amb with
  | nil => simp [bulkLoop]
  | cons w rest ih =>
    unfold bulkLoop
    cases hw : get_record_id_by_field env a f w with
    | ok rid =>
      have hs : singleResultOrNone env a f w = rid := by simp [singleResultOrNone, hw]
      rw [ih]
      by_cases hv : v = w
      · subst hv
        by_cases hr : v ∈ rest
        · simp [hr, List.mem_cons]
        · simp [hr, List.mem_cons, lookupAssoc_updateAssoc, hs]
      · simp [List.mem_cons, hv, lookupAssoc_updateAssoc]
    | error e =>
      have hs : singleResultOrNone env a f w = none := by simp [singleResultOrNone, hw]
      cases e with
      | ambiguous ids =>
        rw [ih]
        by_cases hv : v = w
        · subst hv
          by_cases hr : v ∈ rest
          · simp [hr, List.mem_cons]
          · simp [hr, List.mem_cons, lookupAssoc_updateAssoc, hs]
        · simp [List.mem_cons, hv, lookupAssoc_updateAssoc]
      | fieldNotFound s t =>
        rw [ih]
        by_cases hv : v = w
        · subst hv
          by_cases hr : v ∈ rest
          · simp [hr, List.mem_cons]
          · simp [hr, List.mem_cons, lookupAssoc_updateAssoc, hs]
        · simp [List.mem_cons, hv, lookupAssoc_updateAssoc]
      | invalidModuleId j =>
        rw [ih]
        by_cases hv : v = w
        · subst hv
          by_cases hr : v ∈ rest
          · simp [hr, List.mem_cons]
          · simp [hr, List.mem_cons, lookupAssoc_updateAssoc, hs]
        · simp [List.mem_cons, hv, lookupAssoc_updateAssoc]

theorem bulkLoop_results_keys_mem (env : Env) (a f : String) (vs : List String)
    (results : List (String × Option Int)) (amb : List (String × List Int)) (k : String) :
    k ∈ (bulkLoop env a f vs results amb).1.map Prod.fst ↔
      k ∈ results.map Prod.fst ∨ k ∈ vs := by
  induction vs generalizing results amb with
  | nil => simp [bulkLoop]
  | cons w rest ih =>
    unfold bulkLoop
    cases hw : get_record_id_by_field env a f w with
    | ok rid =>
      rw [ih, mem_keys_updateAssoc]
      simp [List.mem_cons]
      tauto
    | error e =>
      cases e with
      | ambiguous ids =>
        rw [ih, mem_keys_updateAssoc]
        simp [List.mem_cons]
        tauto
      | fieldNotFound s t =>
        rw [ih, mem_keys_updateAssoc]
        simp [List.mem_cons]
        tauto
      | invalidModuleId j =>
        rw [ih, mem_keys_updateAssoc]
        simp [List.mem_cons]
        tauto

theorem bulkLoop_results_keys_nodup (env : Env) (a f : String) (vs : List String)
    (results : List (String × Option Int)) (amb : List (String × List Int))
    (h : (results.map Prod.fst).Nodup) :
    ((bulkLoop env a f vs results amb).1.map Prod.fst).Nodup := by
  induction vs generalizing results amb with
  | nil => simpa [bulkLoop] using h
  | cons w rest ih =>
    unfold bulkLoop
    cases hw : get_record_id_by_field env a f w with
    | ok rid => exact ih _ _ (nodup_keys_updateAssoc _ _ _ h)
    | error e =>
      cases e with
      | ambiguous ids => exact ih _ _ (nodup_keys_updateAssoc _ _ _ h)
      | fieldNotFound s t => exact ih _ _ (nodup_keys_updateAssoc _ _ _ h)
      | invalidModuleId j => exact ih _ _ (nodup_keys_updateAssoc _ _ _ h)

theorem bulkLoop_amb_keys_nodup (env : Env) (a f : String) (vs : List String)
    (results : List (String × Option Int)) (amb : List (String × List Int))
    (h : (amb.map Prod.fst).Nodup) :
    ((bulkLoop env a f vs results amb).2.map Prod.fst).Nodup := by
  induction vs generalizing results amb with
  | nil => simpa [bulkLoop] using h
  | cons w rest ih =>
    unfold bulkLoop
    cases hw : get_record_id_by_field env a f w with
    | ok rid => exact ih _ _ h
    | error e =>
      cases e with
      | ambiguous ids => exact ih _ _ (nodup_keys_updateAssoc _ _ _ h)
      | fieldNotFound s t => exact ih _ _ h
      | invalidModuleId j => exact ih _ _ h

theorem bulkLoop_amb_keys_mem (env : Env) (a f : String) (vs : List String)
    (results : List (String × Option Int)) (amb : List (String × List Int)) (k : String)
    (h : k ∈ (bulkLoop env a f vs results amb).2.map Prod.fst) :
    k ∈ amb.map Prod.fst ∨ k ∈ vs := by
  induction vs generalizing results amb with
  | nil => exact Or.inl (by simpa [bulkLoop] using h)
  | cons w rest ih =>
    unfold bulkLoop at h
    cases hw : get_record_id_by_field env a f w with
    | ok rid =>
      rw [hw] at h
      rcases ih _ _ h with h1 | h1
      · exact Or.inl h1
      · exact Or.inr (List.mem_cons_of_mem _ h1)
    | error e =>
      cases e with
      | ambiguous ids =>
        rw [hw] at h
        rcases ih _ _ h with h1 | h1
        · rcases (mem_keys_updateAssoc _ _ _ _).mp h1 with h2 | h2
          · exact Or.inl h2
          · exact Or.inr (h2 ▸ List.mem_cons_self _ _)
        · exact Or.inr (List.mem_cons_of_mem _ h1)
      | fieldNotFound s t =>
        rw [hw] at h
        rcases ih _ _ h with h1 | h1
        · exact Or.inl h1
        · exact Or.inr (List.mem_cons_of_mem _ h1)
      | invalidModuleId j =>
        rw [hw] at h
        rcases ih _ _ h with h1 | h1
        · exact Or.inl h1
        · exact Or.inr (List.mem_cons_of_mem _ h1)

theorem bulkLoop_amb_of_none (env : Env) (a f : String) (vs : List String)
    (results : List (String × Option Int)) (amb : List (String × List Int))
    (h : ∀ v ∈ vs, ambDetails env a f v = none) :
    (bulkLoop env a f vs results amb).2 = amb := by
  induction vs generalizing results amb with
  | nil => simp [bulkLoop]
  | cons w rest ih =>
    unfold bulkLoop
    cases hw : get_record_id_by_field env a f w with
    | ok rid => exact ih _ _ (fun v hv => h v (List.mem_cons_of_mem _ hv))
    | error e =>
      cases e with
      | ambiguous ids =>
        exfalso
        have := h w (List.mem_cons_self _ _)
        simp [ambDetails, hw] at this
      | fieldNotFound s t => exact ih _ _ (fun v hv => h v (List.mem_cons_of_mem _ hv))
      | invalidModuleId j => exact ih _ _ (fun v hv => h v (List.mem_cons_of_mem _ hv))

theorem bulk_ok_elim (env : Env) (a f : String) (values : List String)
    (m : List (String × Option Int))
    (h : get_record_ids_by_field_bulk env a f values = .ok m) :
    (bulkLoop env a f values [] []).1 = m ∧ (bulkLoop env a f values [] []).2 = [] := by
  unfold get_record_ids_by_field_bulk at h
  by_cases he : (bulkLoop env a f values [] []).2.isEmpty = true
  · rw [if_pos he] at h
    exact ⟨by simpa using h, List.isEmpty_iff.mp he⟩
  · rw [if_neg he] at h
    exact absurd h (by simp)

theorem bulk_error_elim (env : Env) (a f : String) (values : List String)
    (d : List (String × List Int))
    (h : get_record_ids_by_field_bulk env a f values = .error d) :
    (bulkLoop env a f values [] []).2 = d ∧ d ≠ [] := by
  unfold get_record_ids_by_field_bulk at h
  by_cases he : (bulkLoop env a f values [] []).2.isEmpty = true
  · rw [if_pos he] at h
    exact absurd h (by simp)
  · rw [if_neg he] at h
    have hd : (bulkLoop env a f values [] []).2 = d := by simpa using h
    refine ⟨hd, ?_⟩
    rw [← hd]
    intro hc
    exact he (by simp [hc])

/-- C3: when the chosen search strategy yields a sequence of ids,
`get_record_id_by_field` classifies by count: an empty sequence returns
`None` (not an exception), a one-element sequence returns that id, and two
or more ids raise `AmbiguousMatch` carrying the full id list in order. -/
theorem claim_C3 (env : Env) (a f v : String) (fid : Json) (mid : Int) (ids : List Int)
    (h1 : resolve_field_id_by_display_name env a f = .ok fid)
    (h2 : moduleIdOf env.application_level_id = .ok mid)
    (h3 : strategyIds env a f v mid fid (get_value_or_value_id env f fid v) = some ids) :
    (ids = [] → get_record_id_by_field env a f v = .ok none)
    ∧ (∀ x, ids = [x] → get_record_id_by_field env a f v = .ok (some x))
    ∧ (2 ≤ ids.length → get_record_id_by_field env a f v = .error (.ambiguous ids)) := by
  have hg : get_record_id_by_field env a f v = classifyIds ids := by
    unfold get_record_id_by_field
    rw [h1, h2]
    simp only [h3]
  refine ⟨?_, ?_, ?_⟩
  · rintro rfl
    exact hg
  · rintro x rfl
    exact hg
  · intro hlen
    rw [hg]
    match ids, hlen with
    | x :: y :: rest, _ => rfl

/-- C3 witness: in `envAmbTwo`, value `"a"` yields the single id 555 and
value `"b"` yields the ambiguous pair `[1, 2]`. -/
theorem claim_C3_witness :
    get_record_id_by_field envAmbTwo "App" "Ticket Number" "a" = .ok (some 555)
    ∧ get_record_id_by_field envAmbTwo "App" "Ticket Number" "b" =
        .error (.ambiguous [1, 2]) :=
  ⟨(claim_C3 envAmbTwo "App" "Ticket Number" "a" (.num 10) 100 [555] rfl rfl rfl).2.1 555 rfl,
   (claim_C3 envAmbTwo "App" "Ticket Number" "b" (.num 10) 100 [1, 2] rfl rfl rfl).2.2
     (by decide)⟩

/-- C4: the capability probe returns `false` exactly when the request raises
or the response status is 404 or 405; any other status makes it return
`true`, and the response body is irrelevant to the outcome. -/
theorem claim_C4 (env : Env) (mid : Int) :
    (supports_rest_search env mid = false ↔
      env.post (probeBody mid) = none ∨
        ∃ r, env.post (probeBody mid) = some r ∧ (r.status = 404 ∨ r.status = 405))
    ∧ (∀ (env' : Env) (r r' : HttpResp),
        env.post (probeBody mid) = some r → env'.post (probeBody mid) = some r' →
        r.status = r'.status →
        supports_rest_search env mid = supports_rest_search env' mid) := by
  constructor
  · unfold supports_rest_search
    cases hp : env.post (probeBody mid) with
    | none => simp
    | some r =>
      constructor
      · intro h
        replace h : (!(decide (r.status = 404) || decide (r.status = 405))) = false := h
        refine Or.inr ⟨r, rfl, ?_⟩
        by_contra hc
        push_neg at hc
        rw [decide_eq_false hc.1, decide_eq_false hc.2] at h
        simp at h
      · rintro (h | ⟨r', hr', h⟩)
        · exact absurd h (by simp)
        · injection hr' with hrr
          subst hrr
          show (!(decide (r.status = 404) || decide (r.status = 405))) = false
          rcases h with h | h
          · simp [h]
          · simp [h]
  · intro env' r r' h h' hs
    unfold supports_rest_search
    rw [h, h']
    show (!(decide (r.status = 404) || decide (r.status = 405))) =
      (!(decide (r'.status = 404) || decide (r'.status = 405)))
    rw [hs]

/-- C4 witness: a 200 probe response supports REST regardless of body, a
404 response does not, and a raised request does not. -/
theorem claim_C4_witness :
    supports_rest_search envRestOne 100 = supports_rest_search env200BadJson 100
    ∧ supports_rest_search envFallbackDir 100 = false
    ∧ supports_rest_search envTransportFail 100 = false :=
  ⟨(claim_C4 envRestOne 100).2 env200BadJson ⟨200, some (.obj [])⟩ ⟨200, none⟩ rfl rfl rfl,
   (claim_C4 envFallbackDir 100).1.mpr (Or.inr ⟨⟨404, some (.obj [])⟩, rfl, Or.inl rfl⟩),
   (claim_C4 envTransportFail 100).1.mpr (Or.inl rfl)⟩

/-- C6: neither search strategy raises for operational reasons: a raised
request, an HTTP status ≥ 400, or a response whose JSON decoding raises all
yield the empty id sequence from both the REST search and the Content API
search. -/
theorem claim_C6 (env : Env) (mid : Int) (fid val : Json) (limit : Nat)
    (ep : Json) (fdn fv : String) :
    (env.post (searchBody mid fid val limit) = none →
      rest_search_record_ids env mid fid val limit = [])
    ∧ (∀ r, env.post (searchBody mid fid val limit) = some r → 400 ≤ r.status →
      rest_search_record_ids env mid fid val limit = [])
    ∧ (∀ r, env.post (searchBody mid fid val limit) = some r → r.json = none →
      rest_search_record_ids env mid fid val limit = [])
    ∧ (env.get (contentApiUrlFor env ep fdn fv) = none →
      contentapi_search_record_ids env ep fdn fv = [])
    ∧ (∀ r, env.get (contentApiUrlFor env ep fdn fv) = some r → 400 ≤ r.status →
      contentapi_search_record_ids env ep fdn fv = [])
    ∧ (∀ r, env.get (contentApiUrlFor env ep fdn fv) = some r → r.json = none →
      contentapi_search_record_ids env ep fdn fv = []) := by
  refine ⟨?_, ?_, ?_, ?_, ?_, ?_⟩
  · intro h
    unfold rest_search_record_ids
    rw [h]
  · intro r h hs
    unfold rest_search_record_ids
    rw [h]
    simp [hs]
  · intro r h hj
    unfold rest_search_record_ids
    rw [h]
    by_cases hs : r.status ≥ 400 <;> simp [hs, hj]
  · intro h
    unfold contentapi_search_record_ids
    rw [h]
  · intro r h hs
    unfold contentapi_search_record_ids
    rw [h]
    simp [hs]
  · intro r h hj
    unfold contentapi_search_record_ids
    rw [h]
    by_cases hs : r.status ≥ 400 <;> simp [hs, hj]

/-- C6 witness: concrete transport failure, status-500, and bad-JSON
responses all produce empty sequences from both strategies. -/
theorem claim_C6_witness :
    rest_search_record_ids envTransportFail 100 (.num 10) (.str "v") 2 = []
    ∧ rest_search_record_ids env500 100 (.num 10) (.str "v") 2 = []
    ∧ rest_search_record_ids env200BadJson 100 (.num 10) (.str "v") 2 = []
    ∧ contentapi_search_record_ids envTransportFail (.str "Endpoint") "F" "v" = []
    ∧ contentapi_search_record_ids env500 (.str "Endpoint") "F" "v" = []
    ∧ contentapi_search_record_ids env200BadJson (.str "Endpoint") "F" "v" = [] :=
  ⟨(claim_C6 envTransportFail 100 (.num 10) (.str "v") 2 (.str "Endpoint") "F" "v").1 rfl,
   (claim_C6 env500 100 (.num 10) (.str "v") 2 (.str "Endpoint") "F" "v").2.1
     ⟨500, none⟩ rfl (by decide),
   (claim_C6 env200BadJson 100 (.num 10) (.str "v") 2 (.str "Endpoint") "F" "v").2.2.1
     ⟨200, none⟩ rfl rfl,
   (claim_C6 envTransportFail 100 (.num 10) (.str "v") 2 (.str "Endpoint") "F" "v").2.2.2.1 rfl,
   (claim_C6 env500 100 (.num 10) (.str "v") 2 (.str "Endpoint") "F" "v").2.2.2.2.1
     ⟨500, none⟩ rfl (by decide),
   (claim_C6 env200BadJson 100 (.num 10) (.str "v") 2 (.str "Endpoint") "F" "v").2.2.2.2.2
     ⟨200, none⟩ rfl rfl⟩

/-- C7: for a values-list field the search token is the first id returned by
values-list resolution, or the guaranteed-non-matching sentinel when it
returns none; for a non-enumerated field it is the raw value; and when the
REST path is taken, the lookup's outcome is the classification of the REST
search run on exactly that token. -/
theorem claim_C7 (env : Env) (fdn fv : String) (fid : Json) :
    (∀ i rest, is_values_list env fid = true →
      env.get_value_id_by_field_name_and_value fdn fv = i :: rest →
      get_value_or_value_id env fdn fid fv = .num i)
    ∧ (is_values_list env fid = true →
      env.get_value_id_by_field_name_and_value fdn fv = [] →
      get_value_or_value_id env fdn fid fv = .str noMatchSentinel)
    ∧ (is_values_list env fid = false →
      get_value_or_value_id env fdn fid fv = .str fv)
    ∧ (∀ a mid, resolve_field_id_by_display_name env a fdn = .ok fid →
        moduleIdOf env.application_level_id = .ok mid →
        supports_rest_search env mid = true →
        get_record_id_by_field env a fdn fv =
          classifyIds (rest_search_record_ids env mid fid
            (get_value_or_value_id env fdn fid fv) 2)) := by
  refine ⟨?_, ?_, ?_, ?_⟩
  · intro i rest hvl hids
    unfold get_value_or_value_id
    rw [if_pos hvl, hids]
  · intro hvl hids
    unfold get_value_or_value_id
    rw [if_pos hvl, hids]
  · intro hvl
    unfold get_value_or_value_id
    rw [if_neg (by simp [hvl])]
  · intro a mid h1 h2 h3
    unfold get_record_id_by_field
    rw [h1, h2]
    simp only [strategyIds, h3, if_true]

/-- C7 witness: in `envVL` the field `"Status"` is a values list, `"Open"`
resolves to token 999 and the lookup returns the record 777 found for that
token; an unknown value gets the sentinel token; in `envRestOne` the
non-enumerated field keeps the raw value. -/
theorem claim_C7_witness :
    get_value_or_value_id envVL "Status" (.num 20) "Open" = .num 999
    ∧ get_value_or_value_id envVL "Status" (.num 20) "Missing" = .str noMatchSentinel
    ∧ get_value_or_value_id envRestOne "Ticket Number" (.num 10) "INC-1" = .str "INC-1"
    ∧ get_record_id_by_field envVL "App" "Status" "Open" =
        classifyIds (rest_search_record_ids envVL 100 (.num 20)
          (get_value_or_value_id envVL "Status" (.num 20) "Open") 2) :=
  ⟨(claim_C7 envVL "Status" "Open" (.num 20)).1 999 [] rfl rfl,
   (claim_C7 envVL "Status" "Missing" (.num 20)).2.1 rfl rfl,
   (claim_C7 envRestOne "Ticket Number" "INC-1" (.num 10)).2.2.1 rfl,
   (claim_C7 envVL "Status" "Open" (.num 20)).2.2.2 "App" 100 rfl rfl rfl⟩

/-- C8: field resolution succeeds, returning a mapped field id, whenever any
string display-name key of the metadata equals the requested name ignoring
case, and fails with the field-not-found error when no key matches
case-insensitively. -/
theorem claim_C8 (env : Env) (a fdn : String) :
    ((∃ k v, (PyKey.str k, v) ∈ env.application_fields_json ∧ pyLower k = pyLower fdn) →
      ∃ v, resolve_field_id_by_display_name env a fdn = .ok v ∧
        ∃ k, (PyKey.str k, v) ∈ env.application_fields_json ∧ pyLower k = pyLower fdn)
    ∧ ((¬ ∃ k v, (PyKey.str k, v) ∈ env.application_fields_json ∧ pyLower k = pyLower fdn) →
      resolve_field_id_by_display_name env a fdn = .error (.fieldNotFound fdn a)) := by
  constructor
  · rintro ⟨k, v, hmem, hk⟩
    have hs : (env.application_fields_json.find? (fun kv =>
        match kv.1 with
        | .str s => decide (pyLower s = pyLower fdn)
        | _ => false)).isSome := by
      rw [List.find?_isSome]
      exact ⟨(PyKey.str k, v), hmem, by simpa using hk⟩
    obtain ⟨kv0, hfind⟩ := Option.isSome_iff_exists.mp hs
    have hpred := List.find?_some hfind
    have hmem0 := List.mem_of_find?_eq_some hfind
    refine ⟨kv0.2, ?_, ?_⟩
    · unfold resolve_field_id_by_display_name
      simp only [hfind]
    · cases hkey : kv0.1 with
      | str s =>
        refine ⟨s, ?_, ?_⟩
        · have : kv0 = (PyKey.str s, kv0.2) := by
            cases kv0
            simp_all
          rwa [this] at hmem0
        · rw [hkey] at hpred
          simpa using hpred
      | int n =>
        rw [hkey] at hpred
        simp at hpred
  · intro hno
    have hfind : env.application_fields_json.find? (fun kv =>
        match kv.1 with
        | .str s => decide (pyLower s = pyLower fdn)
        | _ => false) = none := by
      rw [List.find?_eq_none]
      intro kv hmem
      cases hkey : kv.1 with
      | str s =>
        simp only [hkey, decide_eq_true_eq]
        intro hs
        refine hno ⟨s, kv.2, ?_, hs⟩
        have : kv = (PyKey.str s, kv.2) := by
          cases kv
          simp_all
        rwa [this] at hmem
      | int n => simp [hkey]
    unfold resolve_field_id_by_display_name
    simp only [hfind]

/-- C8 witness: `"ticket number"` resolves case-insensitively to field id 10
in `envRestOne`, and resolution in the empty metadata of `envNoField` fails
with the field-not-found error. -/
theorem claim_C8_witness :
    (∃ v, resolve_field_id_by_display_name envRestOne "App" "ticket number" = .ok v ∧
      ∃ k, (PyKey.str k, v) ∈ envRestOne.application_fields_json ∧
        pyLower k = pyLower "ticket number")
    ∧ resolve_field_id_by_display_name envNoField "App" "Ticket Number" =
        .error (.fieldNotFound "Ticket Number" "App") :=
  ⟨(claim_C8 envRestOne "App" "ticket number").1 ⟨"Ticket Number", .num 10, by simp [envRestOne], rfl⟩,
   (claim_C8 envNoField "App" "Ticket Number").2 (by rintro ⟨k, v, hmem, _⟩; simp [envNoField, envRestOne] at hmem)⟩

theorem resolve_error_shape (env : Env) (a f : String) (e : LookupErr)
    (h : resolve_field_id_by_display_name env a f = .error e) :
    e = .fieldNotFound f a := by
  unfold resolve_field_id_by_display_name at h
  cases hf : env.application_fields_json.find? (fun kv =>
      match kv.1 with
      | PyKey.str s => decide (pyLower s = pyLower f)
      | _ => false) with
  | some kv =>
    simp only [hf] at h
    exact absurd h (by simp)
  | none =>
    simp only [hf] at h
    injection h with h1
    exact h1.symm

theorem moduleIdOf_error_shape (raw : Json) (e : LookupErr)
    (h : moduleIdOf raw = .error e) : e = .invalidModuleId raw := by
  unfold moduleIdOf at h
  cases h1 : pyInt raw with
  | some n =>
    simp only [h1] at h
    exact absurd h (by simp)
  | none =>
    simp only [h1] at h
    cases h2 : parsePyInt (pyStr raw) with
    | some n =>
      simp only [h2] at h
      exact absurd h (by simp)
    | none =>
      simp only [h2] at h
      injection h with h3
      exact h3.symm

/-- C2 (amended): for every single-value lookup, a configuration error — the
display name not found, or a missing/non-numeric application module id —
propagates to the caller as an exception and is never converted into `None`;
in the bulk lookup, however, each value's configuration error of either kind
is caught and recorded as `None` in the returned mapping, with no exception
raised. -/
theorem claim_C2_amended (env : Env) (a f v : String) :
    (∀ e, resolve_field_id_by_display_name env a f = .error e →
      get_record_id_by_field env a f v = .error e)
    ∧ (∀ fid e, resolve_field_id_by_display_name env a f = .ok fid →
        moduleIdOf env.application_level_id = .error e →
        get_record_id_by_field env a f v = .error e)
    ∧ (∀ (values : List String) (e : LookupErr),
        resolve_field_id_by_display_name env a f = .error e →
        ∃ m, get_record_ids_by_field_bulk env a f values = .ok m ∧
          ∀ w ∈ values, lookupAssoc m w = some none)
    ∧ (∀ (values : List String) (fid : Json) (e : LookupErr),
        resolve_field_id_by_display_name env a f = .ok fid →
        moduleIdOf env.application_level_id = .error e →
        ∃ m, get_record_ids_by_field_bulk env a f values = .ok m ∧
          ∀ w ∈ values, lookupAssoc m w = some none) := by
  refine ⟨?_, ?_, ?_, ?_⟩
  · intro e he
    unfold get_record_id_by_field
    rw [he]
  · intro fid e h1 h2
    unfold get_record_id_by_field
    rw [h1, h2]
  · intro values e he
    have hshape := resolve_error_shape env a f e he
    subst hshape
    have hsingle : ∀ w, get_record_id_by_field env a f w = .error (.fieldNotFound f a) := by
      intro w
      unfold get_record_id_by_field
      rw [he]
    have hamb : (bulkLoop env a f values [] []).2 = [] :=
      bulkLoop_amb_of_none env a f values [] []
        (fun w _ => by simp [ambDetails, hsingle w])
    refine ⟨(bulkLoop env a f values [] []).1, ?_, ?_⟩
    · unfold get_record_ids_by_field_bulk
      rw [if_pos (by simp [hamb])]
    · intro w hw
      rw [bulkLoop_results_lookup, if_pos hw]
      simp [singleResultOrNone, hsingle w]
  · intro values fid e h1 h2
    have hshape := moduleIdOf_error_shape env.application_level_id e h2
    subst hshape
    have hsingle : ∀ w, get_record_id_by_field env a f w =
        .error (.invalidModuleId env.application_level_id) := by
      intro w
      unfold get_record_id_by_field
      rw [h1, h2]
    have hamb : (bulkLoop env a f values [] []).2 = [] :=
      bulkLoop_amb_of_none env a f values [] []
        (fun w _ => by simp [ambDetails, hsingle w])
    refine ⟨(bulkLoop env a f values [] []).1, ?_, ?_⟩
    · unfold get_record_ids_by_field_bulk
      rw [if_pos (by simp [hamb])]
    · intro w hw
      rw [bulkLoop_results_lookup, if_pos hw]
      simp [singleResultOrNone, hsingle w]

/-- C2 counterexample: in `envNoField` the display name resolves nowhere — a
configuration error — and the single lookup raises it, yet the bulk lookup
converts it into an absent result and returns a mapping with `None` instead
of raising. -/
theorem claim_C2_counterexample :
    resolve_field_id_by_display_name envNoField "App" "Ticket Number" =
      .error (.fieldNotFound "Ticket Number" "App")
    ∧ get_record_id_by_field envNoField "App" "Ticket Number" "x" =
      .error (.fieldNotFound "Ticket Number" "App")
    ∧ get_record_ids_by_field_bulk envNoField "App" "Ticket Number" ["x"] =
      .ok [("x", none)] :=
  ⟨rfl, rfl, rfl⟩

/-- C2 witness: the amended behaviour at a concrete environment with no
matching field metadata, and at one with a non-numeric application level
id. -/
theorem claim_C2_witness :
    get_record_id_by_field envNoField "App" "Ticket Number" "x" =
      .error (.fieldNotFound "Ticket Number" "App")
    ∧ get_record_id_by_field envBadModule "App" "Ticket Number" "x" =
      .error (.invalidModuleId (.str "abc"))
    ∧ (∃ m, get_record_ids_by_field_bulk envNoField "App" "Ticket Number" ["x", "y"] = .ok m ∧
        ∀ w ∈ ["x", "y"], lookupAssoc m w = some none)
    ∧ (∃ m, get_record_ids_by_field_bulk envBadModule "App" "Ticket Number" ["x", "y"] = .ok m ∧
        ∀ w ∈ ["x", "y"], lookupAssoc m w = some none) :=
  ⟨(claim_C2_amended envNoField "App" "Ticket Number" "x").1
     (.fieldNotFound "Ticket Number" "App") rfl,
   (claim_C2_amended envBadModule "App" "Ticket Number" "x").2.1 (.num 10)
     (.invalidModuleId (.str "abc")) rfl rfl,
   (claim_C2_amended envNoField "App" "Ticket Number" "x").2.2.1 ["x", "y"]
     (.fieldNotFound "Ticket Number" "App") rfl,
   (claim_C2_amended envBadModule "App" "Ticket Number" "x").2.2.2 ["x", "y"] (.num 10)
     (.invalidModuleId (.str "abc")) rfl rfl⟩

/-- C9: when the bulk lookup returns a mapping, every input value appears
exactly once as a key (keys are exactly the input values, without
duplicates), and the stored value is the single lookup's id with every
per-value failure — not found, transport error, or any exception — recorded
as `None`. -/
theorem claim_C9 (env : Env) (a f : String) (values : List String)
    (m : List (String × Option Int))
    (h : get_record_ids_by_field_bulk env a f values = .ok m) :
    (m.map Prod.fst).Nodup
    ∧ (∀ v, v ∈ m.map Prod.fst ↔ v ∈ values)
    ∧ (∀ v ∈ values, lookupAssoc m v = some (singleResultOrNone env a f v))
    ∧ (∀ v ∈ values, ∀ e, get_record_id_by_field env a f v = .error e →
        lookupAssoc m v = some none) := by
  obtain ⟨hm, hamb⟩ := bulk_ok_elim env a f values m h
  have hlook : ∀ v ∈ values, lookupAssoc m v = some (singleResultOrNone env a f v) := by
    intro v hv
    rw [← hm, bulkLoop_results_lookup, if_pos hv]
  refine ⟨?_, ?_, hlook, ?_⟩
  · rw [← hm]
    exact bulkLoop_results_keys_nodup env a f values [] [] (by simp)
  · intro v
    rw [← hm, bulkLoop_results_keys_mem]
    simp
  · intro v hv e hee
    rw [hlook v hv]
    simp [singleResultOrNone, hee]

/-- C9 witness: a concrete two-value bulk lookup that succeeds, with distinct
keys and each value mapped to its single-lookup result. -/
theorem claim_C9_witness :
    (([("x", some 555), ("y", some 555)] : List (String × Option Int)).map Prod.fst).Nodup
    ∧ lookupAssoc ([("x", some 555), ("y", some 555)] : List (String × Option Int)) "x" =
        some (singleResultOrNone envRestOne "App" "Ticket Number" "x") :=
  ⟨(claim_C9 envRestOne "App" "Ticket Number" ["x", "y"] [("x", some 555), ("y", some 555)] rfl).1,
   (claim_C9 envRestOne "App" "Ticket Number" ["x", "y"] [("x", some 555), ("y", some 555)] rfl).2.2.1
     "x" (by simp)⟩

/-- C1 (amended): a bulk lookup with at least one ambiguous value processes
every input value to the end and then raises the aggregate ambiguous-match
condition, but the condition carries only the full per-value ambiguity map:
the resolved ids of non-ambiguous values are not part of the raised
condition (the partial results mapping is discarded on raise). -/
theorem claim_C1_amended (env : Env) (a f : String) (values : List String)
    (d : List (String × List Int))
    (h : get_record_ids_by_field_bulk env a f values = .error d) :
    (∀ v ∈ values, lookupAssoc d v = ambDetails env a f v)
    ∧ (∀ p ∈ d, p.1 ∈ values)
    ∧ (d.map Prod.fst).Nodup
    ∧ d ≠ [] := by
  obtain ⟨hd, hne⟩ := bulk_error_elim env a f values d h
  refine ⟨?_, ?_, ?_, hne⟩
  · intro v hv
    have hl := bulkLoop_amb_lookup env a f values [] [] v
    rw [hd] at hl
    rw [hl, if_pos hv]
    cases ambDetails env a f v <;> simp [lookupAssoc]
  · intro p hp
    have hk : p.1 ∈ (bulkLoop env a f values [] []).2.map Prod.fst := by
      rw [hd]
      exact List.mem_map_of_mem _ hp
    rcases bulkLoop_amb_keys_mem env a f values [] [] p.1 hk with h1 | h1
    · simp at h1
    · exact h1
  · rw [← hd]
    exact bulkLoop_amb_keys_nodup env a f values [] [] (by simp)

/-- C1 counterexample: in `envAmbTwo`, value `"a"` resolves to 555 and value
`"b"` is ambiguous; the bulk lookup raises a condition whose payload is only
`[("b", [1, 2])]` — it has no entry for `"a"`, so the caller cannot see the
resolved id 555 from the raised condition. -/
theorem claim_C1_counterexample :
    get_record_ids_by_field_bulk envAmbTwo "App" "Ticket Number" ["a", "b"] =
      .error [("b", [1, 2])]
    ∧ get_record_id_by_field envAmbTwo "App" "Ticket Number" "a" = .ok (some 555)
    ∧ lookupAssoc ([("b", [1, 2])] : List (String × List Int)) "a" = none :=
  ⟨rfl, rfl, rfl⟩

/-- C1 witness: the amended behaviour at the concrete two-value environment
with one ambiguous value. -/
theorem claim_C1_witness :
    (∀ v ∈ ["a", "b"], lookupAssoc ([("b", [1, 2])] : List (String × List Int)) v =
      ambDetails envAmbTwo "App" "Ticket Number" v)
    ∧ (∀ p ∈ ([("b", [1, 2])] : List (String × List Int)), p.1 ∈ ["a", "b"]) :=
  ⟨(claim_C1_amended envAmbTwo "App" "Ticket Number" ["a", "b"] [("b", [1, 2])] rfl).1,
   (claim_C1_amended envAmbTwo "App" "Ticket Number" ["a", "b"] [("b", [1, 2])] rfl).2.1⟩

theorem wf_name_normalizes (kvs : List (String × Json))
    (hep : wfDirEntry (.obj kvs) = true) :
    (if ((jsonFind kvs "name").getD (.str "")).truthy then (jsonFind kvs "name").getD (.str "")
     else .str "") = Json.str (epNameStr (.obj kvs)) := by
  simp only [wfDirEntry] at hep
  cases hn : jsonFind kvs "name" with
  | none => simp [hn, epNameStr, Json.truthy]
  | some j =>
    cases j with
    | str s =>
      by_cases hs : s = ""
      · subst hs
        simp [hn, epNameStr, Json.truthy]
      · simp [hn, epNameStr, Json.truthy, hs]
    | null => simp [hn, epNameStr, Json.truthy]
    | bool b =>
      rw [hn] at hep
      simp only [Bool.not_eq_true'] at hep
      simp [hn, epNameStr, hep]
    | num n =>
      rw [hn] at hep
      simp only [Bool.not_eq_true'] at hep
      simp [hn, epNameStr, hep]
    | arr xs =>
      rw [hn] at hep
      simp only [Bool.not_eq_true'] at hep
      simp [hn, epNameStr, hep]
    | obj okvs =>
      rw [hn] at hep
      simp only [Bool.not_eq_true'] at hep
      simp [hn, epNameStr, hep]

theorem grcEndpointLoop_wf (app : String) (eps : List Json)
    (hwf : ∀ ep ∈ eps, wfDirEntry ep = true) (cands : List (Option Json)) :
    grcEndpointLoop app eps cands = .ok (
      match eps.find? (fun ep => decide (epNameStr ep = app)) with
      | some ep => epUrl ep
      | none =>
        ((cands ++ (eps.filter (fun ep => strContains (epNameStr ep) app)).map epUrl).head?).getD
          none) := by
  induction eps generalizing cands with
  | nil => simp [grcEndpointLoop]
  | cons ep rest ih =>
    have hep := hwf ep (List.mem_cons_self _ _)
    have hrest : ∀ e ∈ rest, wfDirEntry e = true :=
      fun e he => hwf e (List.mem_cons_of_mem _ he)
    cases ep with
    | obj kvs =>
      have hname := wf_name_normalizes kvs hep
      simp only [grcEndpointLoop]
      rw [hname]
      by_cases heq : epNameStr (.obj kvs) = app
      · rw [if_pos (by simp [heq])]
        rw [List.find?_cons_of_pos _ (by simp [heq])]
        rfl
      · rw [if_neg (by simp [heq])]
        rw [List.find?_cons_of_neg _ (by simp [heq])]
        have hcont : pyContains app (Json.str (epNameStr (.obj kvs))) =
            .ok (strContains (epNameStr (.obj kvs)) app) := rfl
        rw [hcont]
        by_cases hsub : strContains (epNameStr (.obj kvs)) app = true
        · rw [hsub]
          rw [ih hrest]
          rw [List.filter_cons_of_pos (by simp [hsub])]
          simp [List.append_assoc]
          rfl
        · rw [Bool.eq_false_iff.mpr hsub]
          show grcEndpointLoop app rest cands = _
          rw [ih hrest]
          rw [List.filter_cons_of_neg (by simp [hsub])]
    | null => simp [wfDirEntry] at hep
    | bool b => simp [wfDirEntry] at hep
    | num n => simp [wfDirEntry] at hep
    | str s => simp [wfDirEntry] at hep
    | arr xs => simp [wfDirEntry] at hep

theorem lookup_fallback_eq (env : Env) (a f v : String) (fid : Json) (mid : Int)
    (h1 : resolve_field_id_by_display_name env a f = .ok fid)
    (h2 : moduleIdOf env.application_level_id = .ok mid)
    (h3 : supports_rest_search env mid = false) :
    get_record_id_by_field env a f v =
      match get_grc_endpoint_url env a with
      | none => .ok none
      | some ep =>
        if ep.truthy then classifyIds (contentapi_search_record_ids env ep f v)
        else .ok none := by
  unfold get_record_id_by_field
  rw [h1, h2]
  simp only [strategyIds, h3, Bool.false_eq_true, if_false]
  cases hg : get_grc_endpoint_url env a with
  | none => rfl
  | some ep =>
    by_cases ht : ep.truthy = true
    · simp [ht]
    · simp [Bool.eq_false_iff.mpr ht]

/-- C5: when the capability probe reports unsupported, the lookup performs no
primary structured search — its outcome is a function of the fallback path
only, and is unchanged under any replacement of the POST oracle that leaves
the probe response intact; endpoint discovery selects the exactly matching
directory entry, else the first substring-matching one, else yields absent
(also when the directory request raises); a falsy discovery makes the lookup
return absent, and otherwise the fallback filtered query's result is
classified and returned. -/
theorem claim_C5 (env : Env) (a f v : String) (fid : Json) (mid : Int)
    (h1 : resolve_field_id_by_display_name env a f = .ok fid)
    (h2 : moduleIdOf env.application_level_id = .ok mid)
    (h3 : supports_rest_search env mid = false) :
    (get_record_id_by_field env a f v =
        match get_grc_endpoint_url env a with
        | none => .ok none
        | some ep =>
          if ep.truthy then classifyIds (contentapi_search_record_ids env ep f v)
          else .ok none)
    ∧ (∀ p : PostBody → Option HttpResp,
        p (probeBody mid) = env.post (probeBody mid) →
        get_record_id_by_field { env with post := p } a f v =
          get_record_id_by_field env a f v)
    ∧ (∀ r kvs eps, env.get env.content_api_url_base = some r →
        r.json = some (.obj kvs) → jsonFind kvs "value" = some (.arr eps) →
        (∀ ep ∈ eps, wfDirEntry ep = true) →
        get_grc_endpoint_url env a = selectEndpointSpec a eps)
    ∧ (env.get env.content_api_url_base = none → get_grc_endpoint_url env a = none) := by
  refine ⟨lookup_fallback_eq env a f v fid mid h1 h2 h3, ?_, ?_, ?_⟩
  · intro p hp
    have h1' : resolve_field_id_by_display_name { env with post := p } a f = .ok fid := h1
    have h2' : moduleIdOf ({ env with post := p } : Env).application_level_id = .ok mid := h2
    have h3' : supports_rest_search { env with post := p } mid = false := by
      unfold supports_rest_search
      show (match p (probeBody mid) with
            | none => false
            | some r => !(decide (r.status = 404) || decide (r.status = 405))) = false
      rw [hp]
      exact h3
    rw [lookup_fallback_eq { env with post := p } a f v fid mid h1' h2' h3',
        lookup_fallback_eq env a f v fid mid h1 h2 h3]
    rfl
  · intro r kvs eps hget hjson hval hwf
    unfold get_grc_endpoint_url
    rw [hget]
    simp only [hjson, hval, Option.getD_some]
    rw [grcEndpointLoop_wf a eps hwf []]
    cases hf : eps.find? (fun ep => decide (epNameStr ep = a)) with
    | some ep => simp [selectEndpointSpec, hf]
    | none =>
      cases hfl : (eps.filter (fun ep => strContains (epNameStr ep) a)) with
      | nil => simp [selectEndpointSpec, hf, hfl]
      | cons x xs => simp [selectEndpointSpec, hf, hfl]
  · intro hget
    unfold get_grc_endpoint_url
    rw [hget]

/-- C5 witness: with the probe answering 404, the concrete fallback
environment returns the Content API result 222, its outcome is unchanged
when the POST oracle is replaced by one that would let the REST search
succeed, and discovery matches the spec-side selection on the concrete
directory. -/
theorem claim_C5_witness :
    get_record_id_by_field envFallbackDir "App" "Ticket Number" "XYZ" = .ok (some 222)
    ∧ get_record_id_by_field { envFallbackDir with post := postRest555 } "App"
        "Ticket Number" "XYZ" =
        get_record_id_by_field envFallbackDir "App" "Ticket Number" "XYZ"
    ∧ get_grc_endpoint_url envFallbackDir "App" =
        selectEndpointSpec "App" [.obj [("name", .str "App"), ("url", .str "Endpoint")]]
    ∧ get_grc_endpoint_url envTransportFail "App" = none :=
  ⟨((claim_C5 envFallbackDir "App" "Ticket Number" "XYZ" (.num 10) 100 rfl rfl rfl).1).trans rfl,
   (claim_C5 envFallbackDir "App" "Ticket Number" "XYZ" (.num 10) 100 rfl rfl rfl).2.1
     postRest555 rfl,
   (claim_C5 envFallbackDir "App" "Ticket Number" "XYZ" (.num 10) 100 rfl rfl rfl).2.2.1
     ⟨200, some (.obj [("value",
        .arr [.obj [("name", .str "App"), ("url", .str "Endpoint")]])])⟩
     [("value", .arr [.obj [("name", .str "App"), ("url", .str "Endpoint")]])]
     [.obj [("name", .str "App"), ("url", .str "Endpoint")]]
     rfl rfl rfl
     (by
       intro ep hep
       rcases List.mem_singleton.mp hep with rfl
       rfl),
   (claim_C5 envTransportFail "App" "Ticket Number" "XYZ" (.num 10) 100 rfl rfl rfl).2.2.2
     rfl⟩

theorem rest_search_single_untruthy (env : Env) (mid : Int) (fid val : Json)
    (r : HttpResp) (j : Json)
    (h : env.post (searchBody mid fid val 2) = some r) (hs : r.status = 200)
    (hj : r.json = some (.arr [.obj [("RequestedObject", .obj [("Id", j)])]]))
    (htr : j.truthy = false) :
    rest_search_record_ids env mid fid val 2 = [] := by
  have hitem : restParseListItem (Json.obj [("RequestedObject", Json.obj [("Id", j)])]) =
      appendIfTruthy j := rfl
  have hloop : collectItems restParseListItem
      [Json.obj [("RequestedObject", Json.obj [("Id", j)])]] = .ok [] := by
    simp [collectItems, hitem, appendIfTruthy, htr]
  unfold rest_search_record_ids
  simp only [h, hj]
  rw [if_neg (by rw [hs]; decide)]
  simp [hloop]

/-- C10: the two strategies treat record id 0 differently: the primary REST
response normalization keeps a parsed id only if it is truthy, so a sole
matching record whose id is 0 (or otherwise falsy) produces the empty
sequence — and the lookup reports absent — while the fallback Content API
normalization keeps any id that is not `None` and so returns `[0]`. -/
theorem claim_C10 (env : Env) (mid : Int) (fid val : Json) :
    (∀ r j, env.post (searchBody mid fid val 2) = some r → r.status = 200 →
      r.json = some (.arr [.obj [("RequestedObject", .obj [("Id", j)])]]) →
      j.truthy = false →
      rest_search_record_ids env mid fid val 2 = [])
    ∧ (∀ ep fdn fv r, env.get (contentApiUrlFor env ep fdn fv) = some r →
        r.status = 200 →
        r.json = some (.obj [("value", .arr [.obj [(selectFieldFor ep, .num 0)]])]) →
        contentapi_search_record_ids env ep fdn fv = [0])
    ∧ (∀ a f v r, resolve_field_id_by_display_name env a f = .ok fid →
        moduleIdOf env.application_level_id = .ok mid →
        supports_rest_search env mid = true →
        env.post (searchBody mid fid (get_value_or_value_id env f fid v) 2) = some r →
        r.status = 200 →
        r.json = some (.arr [.obj [("RequestedObject", .obj [("Id", .num 0)])]]) →
        get_record_id_by_field env a f v = .ok none) := by
  refine ⟨?_, ?_, ?_⟩
  · intro r j h hs hj htr
    exact rest_search_single_untruthy env mid fid val r j h hs hj htr
  · intro ep fdn fv r h hs hj
    have hfind : List.find? (fun kv => decide (kv.1 = selectFieldFor ep))
        [(selectFieldFor ep, Json.num 0)] = some (selectFieldFor ep, Json.num 0) :=
      List.find?_cons_of_pos _ (by simp)
    have hitem : contentParseItem (selectFieldFor ep)
        (Json.obj [(selectFieldFor ep, Json.num 0)]) = .ok (some 0) := by
      unfold contentParseItem pyGetOpt jsonFind
      simp [hfind, pyInt]
    unfold contentapi_search_record_ids
    simp only [h, hj]
    rw [if_neg (by rw [hs]; decide)]
    have hv : jsonFind [("value", Json.arr [Json.obj [(selectFieldFor ep, Json.num 0)]])]
        "value" = some (Json.arr [Json.obj [(selectFieldFor ep, Json.num 0)]]) := rfl
    simp [hv, collectItems, hitem]
    rfl
  · intro a f v r h1 h2 hsup hpost hs hj
    have hrest := rest_search_single_untruthy env mid fid
      (get_value_or_value_id env f fid v) r (.num 0) hpost hs hj rfl
    unfold get_record_id_by_field
    rw [h1, h2]
    simp only [strategyIds, hsup, if_true, hrest]
    rfl

/-- C10 witness: the concrete id-0 responses — the REST strategy drops the
record and the lookup reports absent, while the Content API strategy keeps
it. -/
theorem claim_C10_witness :
    rest_search_record_ids envZeroRest 100 (.num 10) (.str "v") 2 = []
    ∧ contentapi_search_record_ids envZeroContent (.str "Endpoint") "Ticket Number" "v" = [0]
    ∧ get_record_id_by_field envZeroRest "App" "Ticket Number" "v" = .ok none :=
  ⟨(claim_C10 envZeroRest 100 (.num 10) (.str "v")).1
     ⟨200, some (.arr [.obj [("RequestedObject", .obj [("Id", .num 0)])]])⟩ (.num 0)
     rfl rfl rfl rfl,
   (claim_C10 envZeroContent 100 (.num 10) (.str "v")).2.1 (.str "Endpoint") "Ticket Number" "v"
     ⟨200, some (.obj [("value", .arr [.obj [("Endpoint_Id", .num 0)]])])⟩
     rfl rfl rfl,
   (claim_C10 envZeroRest 100 (.num 10) (.str "v")).2.2 "App" "Ticket Number" "v"
     ⟨200, some (.arr [.obj [("RequestedObject", .obj [("Id", .num 0)])]])⟩
     rfl rfl rfl rfl rfl rfl⟩

end RecordSearch
